import Mathlib

/-
Verification of the financial-chatbot relay service (backend/main.py).

The file embeds the service shallowly: the pydantic models become
structures, the static client-configuration table becomes an association
list, the prompt builder becomes a pure function on strings (Python
truthiness of the optional fields is modelled explicitly), and the
POST /api/chat handler becomes a function from an upstream-completion
oracle and a request to a log together with an outcome.  The handler's
try/except structure is modelled faithfully: the two validation
HTTPException(400) raises sit inside the try block, so they are caught
by the blanket `except Exception` and re-raised as HTTPException(500).

One remark on fidelity: the committed source has a missing comma between
the `fund_name=` and `product_data=` keyword arguments of the
get_system_prompt call inside the chat handler (a Python SyntaxError).
Following the specification's design note, the embedding implements the
evidently intended call, i.e. the one with the comma present.
-/

set_option maxRecDepth 8000

namespace FinChat

/-- Message model: role plus text content, as in the pydantic Message. -/
structure Message where
  role : String
  content : String
  deriving DecidableEq, Repr

/-- ChatRequest model: messages, required client_id, optional isin,
fund_name and product_data.  Python dicts preserve insertion order, so
product_data is an association list. -/
structure ChatRequest where
  messages : List Message
  client_id : String
  isin : Option String := none
  fund_name : Option String := none
  product_data : Option (List (String × String)) := none
  deriving DecidableEq, Repr

/-- ChatResponse model: the single generated-reply field. -/
structure ChatResponse where
  response : String
  deriving DecidableEq, Repr

/-- One entry of the CLIENT_CONFIGS table. -/
structure ClientConfig where
  name : String
  disclaimer : String
  deriving DecidableEq, Repr

/-- The "default" entry of CLIENT_CONFIGS. -/
def defaultConfig : ClientConfig :=
  { name := "Finanzportal", disclaimer := "Dies ist keine Anlageberatung." }

/-- The static CLIENT_CONFIGS table, in source order. -/
def CLIENT_CONFIGS : List (String × ClientConfig) :=
  [("comdirect",
    { name := "comdirect",
      disclaimer := "Dies ist keine Anlageberatung von comdirect." }),
   ("consorsbank",
    { name := "Consorsbank",
      disclaimer := "Dies ist keine Anlageberatung von Consorsbank." }),
   ("default", defaultConfig)]

/-- CLIENT_CONFIGS.get(client_id, CLIENT_CONFIGS["default"]). -/
def resolveConfig (client_id : String) : ClientConfig :=
  (CLIENT_CONFIGS.lookup client_id).getD defaultConfig

/-- The part of the base-prompt f-string before the client name. -/
def basePart1 : String :=
  "Du bist ein hilfreicher Assistent für Finanzprodukte bei "

/-- The part of the base-prompt f-string between the client name and the
client disclaimer. -/
def basePart2 : String :=
  ".\n\nSTRIKTE REGELN - NIEMALS BRECHEN:\n1. Du darfst KEINE Anlageberatung geben\n2. Du darfst KEINE Kauf- oder Verkaufsempfehlungen aussprechen\n3. Du darfst KEINE Renditeprognosen oder Kursziele nennen\n4. Du darfst NICHT sagen \"dieses Produkt ist besser als jenes\"\n5. Du darfst KEINE persönlichen Anlagestrategien empfehlen\n\nWAS DU DARFST:\n- Fachbegriffe erklären (z.B. \"Was ist eine TER?\", \"Was bedeutet Tracking Error?\")\n- Allgemeine Funktionsweise von ETFs/Fonds erklären\n- Unterschiede zwischen Anlageklassen erklären (Aktien vs. Anleihen)\n- Allgemeine Informationen über Indizes geben (z.B. \"Der MSCI World umfasst...\")\n- Risiken von Anlageklassen allgemein erklären\n- Die aktuellen Produktdaten nennen, die dir zur Verfügung stehen\n\nPRODUKTSPEZIFISCHE FRAGEN:\n- Nutze dein Trainingswissen über bekannte ETFs und Fonds\n- Bei unbekannten Produkten: Erkläre die Anlageklasse allgemein\n- Wenn Produktdaten verfügbar sind, nutze diese für präzise Antworten\n\nANTWORTSTIL:\n- Kurz und präzise (max. 3-4 Sätze)\n- Professionell aber verständlich\n- Keine Fachbegriffe ohne Erklärung\n- Freundlich und hilfsbereit\n\nDISCLAIMER:\nBeende komplexe Antworten mit: \""

/-- The tail of the base-prompt f-string after the client disclaimer. -/
def basePart3 : String := "\"\n"

/-- The base_prompt f-string of get_system_prompt, parameterized by the
resolved client configuration. -/
def base_prompt (cfg : ClientConfig) : String :=
  basePart1 ++ cfg.name ++ basePart2 ++ cfg.disclaimer ++ basePart3

/-- Header of the ISIN/fund-name context block. -/
def kontextHeader : String :=
  "\n\nKONTEXT: Der Nutzer betrachtet gerade das Produkt:\n"

/-- Header of the product-data block. -/
def dataHeader : String :=
  "\n\nAKTUELLE PRODUKTDATEN (verwende diese für präzise Antworten):\n"

/-- One product-data line, f"- \x7bkey\x7d: \x7bvalue\x7d\n". -/
def kvLine (kv : String × String) : String :=
  "- " ++ kv.1 ++ ": " ++ kv.2 ++ "\n"

/-- Python truthiness of the optional string parameters: None and the
empty string are falsy. -/
def truthyStr : Option String → Bool
  | none => false
  | some s => s != ""

/-- Python truthiness of the optional product_data dict: None and the
empty dict are falsy. -/
def truthyDict : Option (List (String × String)) → Bool
  | none => false
  | some l => !l.isEmpty

/-- Concatenation of the product-data lines in iteration order (used to
restate the foldl that models the Python for-loop). -/
def joinKV : List (String × String) → String
  | [] => ""
  | kv :: rest => kvLine kv ++ joinKV rest

/-- The get_system_prompt function of backend/main.py. -/
def get_system_prompt (client_id : String) (isin fund_name : Option String)
    (product_data : Option (List (String × String))) : String :=
  let client_config := resolveConfig client_id
  let p1 := base_prompt client_config
  let p2 :=
    if truthyStr isin || truthyStr fund_name then
      p1 ++ (kontextHeader
        ++ (if truthyStr fund_name then "- Name: " ++ fund_name.getD "" ++ "\n" else "")
        ++ (if truthyStr isin then "- ISIN: " ++ isin.getD "" ++ "\n" else ""))
    else p1
  if truthyDict product_data then
    p2 ++ ((product_data.getD []).foldl (fun acc kv => acc ++ kvLine kv) dataHeader)
  else p2

/-- Exceptions that can flow to the chat handler's except clause: either
a fastapi HTTPException or some other runtime error. -/
inductive Exc where
  | httpError (status : Nat) (detail : String)
  | runtime (msg : String)
  deriving DecidableEq, Repr

/-- Python str(e): starlette's HTTPException renders as
"status_code: detail", any other exception as its message. -/
def strExc : Exc → String
  | .httpError s d => toString s ++ ": " ++ d
  | .runtime m => m

/-- The upstream chat.completions.create request. -/
structure UpstreamRequest where
  model : String
  messages : List Message
  temperature : ℚ
  max_tokens : ℕ
  top_p : ℚ
  frequency_penalty : ℚ
  presence_penalty : ℚ
  deriving DecidableEq, Repr

/-- The upstream call, abstracted: given the request it either raises an
exception or returns the text of the first generated message. -/
abbrev Completion := UpstreamRequest → Except Exc String

/-- The upstream request constructed by the chat handler: one system
message holding the assembled prompt, then the caller's messages copied
in order, with the fixed generation parameters of the source. -/
def buildUpstreamRequest (req : ChatRequest) : UpstreamRequest :=
  { model := "gpt-3.5-turbo"
    messages :=
      { role := "system",
        content := get_system_prompt req.client_id req.isin req.fund_name req.product_data }
      :: req.messages.map (fun m => { role := m.role, content := m.content })
    temperature := 0.7
    max_tokens := 500
    top_p := 1.0
    frequency_penalty := 0.0
    presence_penalty := 0.0 }

/-- The body of the try block of the chat handler: validation raises
HTTPException(400), then the upstream call is made and its first message
text is wrapped in a ChatResponse. -/
def chatBody (complete : Completion) (req : ChatRequest) : Except Exc ChatResponse :=
  if req.client_id = "" then
    Except.error (Exc.httpError 400 "client_id ist erforderlich")
  else if req.messages = [] then
    Except.error (Exc.httpError 400 "Mindestens eine Nachricht erforderlich")
  else
    match complete (buildUpstreamRequest req) with
    | Except.error e => Except.error e
    | Except.ok t => Except.ok { response := t }

/-- Observable outcome of POST /api/chat: a 200 body, or an HTTP error
status with a detail message. -/
inductive ChatOutcome where
  | success (body : ChatResponse)
  | failure (status : Nat) (detail : String)
  deriving DecidableEq, Repr

/-- The chat handler including its except clause: any exception raised in
the body is printed server-side and re-raised as HTTPException(500) whose
detail embeds str(e).  The first component is the server-side log. -/
def chat (complete : Completion) (req : ChatRequest) : List String × ChatOutcome :=
  match chatBody complete req with
  | Except.ok r => ([], ChatOutcome.success r)
  | Except.error e =>
      (["Error in chat endpoint: " ++ strExc e],
       ChatOutcome.failure 500 ("Ein Fehler ist aufgetreten: " ++ strExc e))

/-- The GET /health payload. -/
structure HealthPayload where
  status : String
  service : String
  version : String
  deriving DecidableEq, Repr

/-- The health_check handler.  It has access to the shared upstream
client (the argument) but never invokes it. -/
def health_check (_complete : Completion) : HealthPayload :=
  { status := "healthy", service := "financial-chatbot-api", version := "1.0.0" }

/-- Substring containment, stated on the underlying character lists. -/
abbrev strContains (s sub : String) : Prop := sub.data <:+: s.data

/-- Boolean test: is p a leading segment of l. -/
def isPrefB : List Char → List Char → Bool
  | [], _ => true
  | _ :: _, [] => false
  | a :: s, b :: t => a == b && isPrefB s t

/-- Boolean substring search for pat inside l. -/
def hasInfB (pat : List Char) : List Char → Bool
  | [] => isPrefB pat []
  | b :: t => isPrefB pat (b :: t) || hasInfB pat t

/-- An upstream oracle that always succeeds with a fixed reply. -/
def stubOk : Completion := fun _ => Except.ok "Hallo!"

/-- An upstream oracle that always raises a connection error. -/
def stubErr : Completion := fun _ => Except.error (Exc.runtime "Connection error.")

/-- A request with an empty client_id. -/
def emptyClientReq : ChatRequest :=
  { messages := [{ role := "user", content := "Hallo" }], client_id := "" }

/-- A request with an empty message list. -/
def emptyMessagesReq : ChatRequest :=
  { messages := [], client_id := "comdirect" }

/-- A well-formed sample request. -/
def exampleReq : ChatRequest :=
  { messages := [{ role := "user", content := "Was ist eine TER?" }],
    client_id := "comdirect" }

/-! ### Helper lemmas -/

theorem isPrefB_iff (p l : List Char) : isPrefB p l = true ↔ p <+: l := by
  induction p generalizing l with
  | nil => simp [isPrefB]
  | cons a s ih =>
    cases l with
    | nil => simp [isPrefB]
    | cons b t =>
      simp [isPrefB, Bool.and_eq_true, beq_iff_eq, ih, List.cons_prefix_cons]

theorem midConsIff (p : List Char) (b : Char) (t : List Char) :
    p <:+: b :: t ↔ p <+: b :: t ∨ p <:+: t := by
  exact List.infix_cons_iff

theorem hasInfB_iff (p l : List Char) : hasInfB p l = true ↔ p <:+: l := by
  induction l with
  | nil => simp [hasInfB, isPrefB_iff]
  | cons b t ih =>
    rw [midConsIff]
    simp [hasInfB, Bool.or_eq_true, isPrefB_iff, ih]

theorem not_mid_of_hasInfB {p l : List Char} (h : hasInfB p l = false) :
    ¬ p <:+: l := by
  intro hc
  rw [← hasInfB_iff] at hc
  rw [h] at hc
  cases hc

theorem leadToMid {α : Type} {l₁ l₂ : List α} (h : l₁ <+: l₂) : l₁ <:+: l₂ := by
  obtain ⟨t, rfl⟩ := h
  exact ⟨[], t, by simp⟩

theorem trailToMid {α : Type} {l₁ l₂ : List α} (h : l₁ <:+ l₂) : l₁ <:+: l₂ := by
  obtain ⟨s, rfl⟩ := h
  exact ⟨s, [], by simp⟩

theorem safeMid {α : Type} (l₁ l₂ l₃ : List α) : l₂ <:+: l₁ ++ l₂ ++ l₃ := by
  exact List.infix_append l₁ l₂ l₃

theorem strContains_self (s : String) : strContains s s := by
  exact List.infix_refl s.data

theorem strContains_mid (a sub c : String) : strContains (a ++ sub ++ c) sub := by
  show sub.data <:+: (a ++ sub ++ c).data
  rw [String.data_append, String.data_append]
  exact safeMid a.data sub.data c.data

theorem strContains_append_right (s t sub : String) (h : strContains s sub) :
    strContains (s ++ t) sub := by
  show sub.data <:+: (s ++ t).data
  rw [String.data_append]
  exact h.trans (leadToMid ⟨t.data, rfl⟩)

theorem strContains_append_left (s t sub : String) (h : strContains t sub) :
    strContains (s ++ t) sub := by
  show sub.data <:+: (s ++ t).data
  rw [String.data_append]
  exact h.trans (trailToMid ⟨s.data, rfl⟩)

theorem append_ne_empty_left (s t : String) (h : s ≠ "") : s ++ t ≠ "" := by
  intro he
  apply h
  have hd := congrArg String.data he
  rw [String.data_append] at hd
  have hs := (List.append_eq_nil.mp hd).1
  exact String.ext hs

/-- Decomposition of an occurrence inside an append: the pattern lies in
the left part, lies in the right part, or straddles the boundary. -/
theorem sandwichSplit {α : Type} {pat X Y : List α} (h : pat <:+: X ++ Y) :
    pat <:+: X ∨ pat <:+: Y ∨
      ∃ s t, s ≠ [] ∧ t ≠ [] ∧ pat = s ++ t ∧ s <:+ X ∧ t <+: Y := by
  obtain ⟨A, B, hAB⟩ := h
  rw [List.append_assoc] at hAB
  rcases List.append_eq_append_iff.mp hAB with ⟨a, hXa, hpB⟩ | ⟨c, _, hYc⟩
  · rcases List.append_eq_append_iff.mp hpB with ⟨p, hap, _⟩ | ⟨q, hpq, hYq⟩
    · left
      refine ⟨A, p, ?_⟩
      rw [hXa, hap, List.append_assoc]
    · by_cases ha : a = []
      · right; left
        subst ha
        simp only [List.nil_append] at hpq
        exact ⟨[], B, by rw [hYq, hpq]; simp⟩
      · by_cases hq : q = []
        · left
          subst hq
          rw [List.append_nil] at hpq
          exact ⟨A, [], by rw [hXa, hpq]; simp⟩
        · right; right
          exact ⟨a, q, ha, hq, hpq, ⟨A, hXa.symm⟩, ⟨B, hYq.symm⟩⟩
  · right; left
    exact ⟨c, B, by rw [hYc, List.append_assoc]⟩

/-- No occurrence across an append whose left part ends in a character
that the pattern does not contain. -/
theorem no_straddle_left {α : Type} {pat X Y : List α}
    (hX : ¬ pat <:+: X) (hY : ¬ pat <:+: Y)
    (hlast : ∀ c, X.getLast? = some c → c ∉ pat) :
    ¬ pat <:+: X ++ Y := by
  intro h
  rcases sandwichSplit h with h1 | h2 | ⟨s, t, hs, _, hpat, hsX, _⟩
  · exact hX h1
  · exact hY h2
  · obtain ⟨u, hu⟩ := hsX
    have hlast2 : X.getLast? = s.getLast? := by
      rw [← hu, List.getLast?_append, List.getLast?_eq_getLast s hs]
      simp
    have hmem : s.getLast hs ∈ pat := by
      rw [hpat]
      exact List.mem_append.mpr (Or.inl (List.getLast_mem hs))
    exact hlast (s.getLast hs) (by rw [hlast2, List.getLast?_eq_getLast s hs]) hmem

/-- No occurrence across an append whose right part starts in a character
that the pattern does not contain. -/
theorem no_straddle_right {α : Type} {pat X Y : List α}
    (hX : ¬ pat <:+: X) (hY : ¬ pat <:+: Y)
    (hhead : ∀ c, Y.head? = some c → c ∉ pat) :
    ¬ pat <:+: X ++ Y := by
  intro h
  rcases sandwichSplit h with h1 | h2 | ⟨s, t, _, ht, hpat, _, htY⟩
  · exact hX h1
  · exact hY h2
  · obtain ⟨v, hv⟩ := htY
    have hhead2 : Y.head? = t.head? := by
      rw [← hv, List.head?_append, List.head?_eq_head ht]
      simp
    have hmem : t.head ht ∈ pat := by
      rw [hpat]
      exact List.mem_append.mpr (Or.inr (List.head_mem ht))
    exact hhead (t.head ht) (by rw [hhead2, List.head?_eq_head ht]) hmem

theorem joinKV_append (a b : List (String × String)) :
    joinKV (a ++ b) = joinKV a ++ joinKV b := by
  induction a with
  | nil => simp [joinKV, String.empty_append]
  | cons kv rest ih =>
    show kvLine kv ++ joinKV (rest ++ b) = kvLine kv ++ joinKV rest ++ joinKV b
    rw [ih, String.append_assoc]

theorem foldl_kvLine (kvs : List (String × String)) (acc : String) :
    kvs.foldl (fun a kv => a ++ kvLine kv) acc = acc ++ joinKV kvs := by
  induction kvs generalizing acc with
  | nil => simp [joinKV, String.append_empty]
  | cons kv rest ih =>
    simp only [List.foldl_cons, ih, joinKV, String.append_assoc]

theorem resolveConfig_cases (cid : String) :
    resolveConfig cid
        = { name := "comdirect",
            disclaimer := "Dies ist keine Anlageberatung von comdirect." }
    ∨ resolveConfig cid
        = { name := "Consorsbank",
            disclaimer := "Dies ist keine Anlageberatung von Consorsbank." }
    ∨ resolveConfig cid = defaultConfig := by
  simp only [resolveConfig, CLIENT_CONFIGS, List.lookup]
  cases h1 : cid == "comdirect" <;> cases h2 : cid == "consorsbank" <;>
    cases h3 : cid == "default" <;> simp [h1, h2, h3, defaultConfig]

theorem base_contains_name (cfg : ClientConfig) :
    strContains (base_prompt cfg) cfg.name := by
  have h : base_prompt cfg
      = basePart1 ++ cfg.name ++ (basePart2 ++ cfg.disclaimer ++ basePart3) := by
    simp [base_prompt, String.append_assoc]
  rw [h]
  exact strContains_mid _ _ _

theorem base_contains_disclaimer (cfg : ClientConfig) :
    strContains (base_prompt cfg) cfg.disclaimer := by
  have h : base_prompt cfg
      = (basePart1 ++ cfg.name ++ basePart2) ++ cfg.disclaimer ++ basePart3 := by
    simp [base_prompt, String.append_assoc]
  rw [h]
  exact strContains_mid _ _ _

theorem gsp_decompose (cid : String) (isin fn : Option String)
    (pd : Option (List (String × String))) :
    ∃ q : String, get_system_prompt cid isin fn pd
      = base_prompt (resolveConfig cid) ++ q := by
  cases h1 : (truthyStr isin || truthyStr fn) <;> cases h2 : truthyDict pd <;>
    simp [get_system_prompt, h1, h2, String.append_assoc]
  exact ⟨"", (String.append_empty _).symm⟩

/-! ### Claim theorems -/

/-- C1: the source raises HTTPException(400) for an empty client_id and
for an empty message list, but both raises happen inside the try block,
so the blanket except clause catches them and re-raises
HTTPException(500).  At the two failing inputs the endpoint therefore
answers 500, not 400, refuting the claimed status code. -/
theorem validation_errors_return_500 :
    chat stubOk emptyClientReq
      = (["Error in chat endpoint: 400: client_id ist erforderlich"],
         ChatOutcome.failure 500
           "Ein Fehler ist aufgetreten: 400: client_id ist erforderlich")
    ∧ chat stubOk emptyMessagesReq
      = (["Error in chat endpoint: 400: Mindestens eine Nachricht erforderlich"],
         ChatOutcome.failure 500
           "Ein Fehler ist aufgetreten: 400: Mindestens eine Nachricht erforderlich") :=
  ⟨rfl, rfl⟩

/-- C2: for any call of the prompt builder, when the client identifier is
a key of CLIENT_CONFIGS the assembled prompt contains that entry's name
and disclaimer; when it is not a key, the prompt contains the default
name "Finanzportal" and the generic disclaimer. -/
theorem prompt_client_resolution (cid : String) (isin fn : Option String)
    (pd : Option (List (String × String))) :
    (∀ cfg : ClientConfig, CLIENT_CONFIGS.lookup cid = some cfg →
        strContains (get_system_prompt cid isin fn pd) cfg.name
        ∧ strContains (get_system_prompt cid isin fn pd) cfg.disclaimer)
    ∧ (CLIENT_CONFIGS.lookup cid = none →
        strContains (get_system_prompt cid isin fn pd) "Finanzportal"
        ∧ strContains (get_system_prompt cid isin fn pd) "Dies ist keine Anlageberatung.") := by
  obtain ⟨q, hq⟩ := gsp_decompose cid isin fn pd
  constructor
  · intro cfg hcfg
    have hres : resolveConfig cid = cfg := by
      simp [resolveConfig, hcfg]
    rw [hq, hres]
    exact ⟨strContains_append_right _ _ _ (base_contains_name cfg),
           strContains_append_right _ _ _ (base_contains_disclaimer cfg)⟩
  · intro hnone
    have hres : resolveConfig cid = defaultConfig := by
      simp [resolveConfig, hnone]
    rw [hq, hres]
    exact ⟨strContains_append_right _ _ _ (base_contains_name defaultConfig),
           strContains_append_right _ _ _ (base_contains_disclaimer defaultConfig)⟩

/-- Witness for C2 at client_id "comdirect" (a key of the table) and at
client_id "unknown" (not a key). -/
theorem prompt_client_resolution_witness :
    CLIENT_CONFIGS.lookup "comdirect"
        = some { name := "comdirect",
                 disclaimer := "Dies ist keine Anlageberatung von comdirect." }
    ∧ strContains (get_system_prompt "comdirect" none none none) "comdirect"
    ∧ strContains (get_system_prompt "comdirect" none none none)
        "Dies ist keine Anlageberatung von comdirect."
    ∧ CLIENT_CONFIGS.lookup "unknown" = none
    ∧ strContains (get_system_prompt "unknown" none none none) "Finanzportal"
    ∧ strContains (get_system_prompt "unknown" none none none)
        "Dies ist keine Anlageberatung." := by
  refine ⟨rfl, ?_, ?_, rfl, ?_, ?_⟩
  · exact ((prompt_client_resolution "comdirect" none none none).1 _ rfl).1
  · exact ((prompt_client_resolution "comdirect" none none none).1 _ rfl).2
  · exact ((prompt_client_resolution "unknown" none none none).2 rfl).1
  · exact ((prompt_client_resolution "unknown" none none none).2 rfl).2

/-- C9: supplying isin and fund_name as empty strings behaves exactly
like leaving both absent, because Python truthiness treats the empty
string as false. -/
theorem empty_product_fields_like_absent (cid : String)
    (pd : Option (List (String × String))) :
    get_system_prompt cid (some "") (some "") pd
      = get_system_prompt cid none none pd := rfl

/-- C10: for every input combination, the compliance-rule text
parameterized by the resolved client's name and disclaimer is a leading
segment of the assembled prompt; the optional blocks are only ever
appended after it. -/
theorem compliance_rules_lead_prompt (cid : String) (isin fn : Option String)
    (pd : Option (List (String × String))) :
    (∃ q : String, get_system_prompt cid isin fn pd
        = base_prompt (resolveConfig cid) ++ q)
    ∧ get_system_prompt cid none none none = base_prompt (resolveConfig cid) :=
  ⟨gsp_decompose cid isin fn pd, rfl⟩

/-- C3: intended behaviour of the product-data path (the committed call
site itself is a SyntaxError, see the header comment): when a non-empty
product_data mapping is passed, the assembled prompt is the prompt
without product data followed by the data header and one line per
key/value pair in iteration order, and hence contains each pair's line. -/
theorem product_data_enumerated (cid : String) (isin fn : Option String)
    (pd : List (String × String)) (h : pd ≠ []) :
    get_system_prompt cid isin fn (some pd)
      = get_system_prompt cid isin fn none ++ (dataHeader ++ joinKV pd)
    ∧ ∀ kv ∈ pd, strContains (get_system_prompt cid isin fn (some pd)) (kvLine kv) := by
  have hT : truthyDict (some pd) = true := by
    cases pd with
    | nil => exact absurd rfl h
    | cons kv rest => rfl
  have hd : truthyDict none = false := rfl
  have heq : get_system_prompt cid isin fn (some pd)
      = get_system_prompt cid isin fn none ++ (dataHeader ++ joinKV pd) := by
    cases h1 : (truthyStr isin || truthyStr fn) <;>
      simp [get_system_prompt, h1, hT, hd, foldl_kvLine, String.append_assoc]
  refine ⟨heq, ?_⟩
  intro kv hkv
  obtain ⟨l1, l2, rfl⟩ := List.append_of_mem hkv
  have heq2 : get_system_prompt cid isin fn (some (l1 ++ kv :: l2))
      = (get_system_prompt cid isin fn none ++ dataHeader ++ joinKV l1)
        ++ kvLine kv ++ joinKV l2 := by
    rw [heq, joinKV_append]
    rw [show joinKV (kv :: l2) = kvLine kv ++ joinKV l2 from rfl]
    simp [String.append_assoc]
  rw [heq2]
  exact strContains_mid _ _ _

/-- Witness for C3 at product_data = [("TER", "0.20%")]. -/
theorem product_data_enumerated_witness :
    ([("TER", "0.20%")] : List (String × String)) ≠ []
    ∧ strContains (get_system_prompt "comdirect" none none (some [("TER", "0.20%")]))
        (kvLine ("TER", "0.20%")) := by
  refine ⟨by decide, ?_⟩
  exact (product_data_enumerated "comdirect" none none [("TER", "0.20%")]
    (by decide)).2 ("TER", "0.20%") (by simp)

/-- C5: for every validated request, the upstream request consists of one
system message holding the assembled prompt followed by the caller's
messages unchanged and in order, with temperature 0.7, max_tokens 500,
top_p 1.0 and both penalties 0.0; and the handler's post-validation
behaviour is exactly the upstream call on that request. -/
theorem upstream_request_construction (req : ChatRequest)
    (h1 : req.client_id ≠ "") (h2 : req.messages ≠ []) :
    (buildUpstreamRequest req).messages
      = { role := "system",
          content := get_system_prompt req.client_id req.isin req.fund_name req.product_data }
        :: req.messages
    ∧ (buildUpstreamRequest req).temperature = 0.7
    ∧ (buildUpstreamRequest req).max_tokens = 500
    ∧ (buildUpstreamRequest req).top_p = 1.0
    ∧ (buildUpstreamRequest req).frequency_penalty = 0.0
    ∧ (buildUpstreamRequest req).presence_penalty = 0.0
    ∧ ∀ complete : Completion, chatBody complete req
        = match complete (buildUpstreamRequest req) with
          | Except.error e => Except.error e
          | Except.ok t => Except.ok { response := t } := by
  refine ⟨?_, rfl, rfl, rfl, rfl, rfl, ?_⟩
  · show ({ role := "system", content := _ } : Message)
        :: req.messages.map (fun m => { role := m.role, content := m.content })
      = _
    rw [show (fun m : Message => ({ role := m.role, content := m.content } : Message))
          = id from rfl, List.map_id]
  · intro complete
    simp [chatBody, h1, h2]

/-- Witness for C5 at a concrete valid request. -/
theorem upstream_request_construction_witness :
    exampleReq.client_id ≠ "" ∧ exampleReq.messages ≠ []
    ∧ (buildUpstreamRequest exampleReq).temperature = 0.7
    ∧ (buildUpstreamRequest exampleReq).max_tokens = 500 := by
  refine ⟨by decide, by decide, ?_, ?_⟩
  · exact (upstream_request_construction exampleReq (by decide) (by decide)).2.1
  · exact (upstream_request_construction exampleReq (by decide) (by decide)).2.2.1

/-- C6: whenever the upstream call succeeds with text t, the endpoint
answers success and the response field is exactly t. -/
theorem chat_success_returns_upstream_text (complete : Completion)
    (req : ChatRequest) (t : String)
    (h1 : req.client_id ≠ "") (h2 : req.messages ≠ [])
    (h3 : complete (buildUpstreamRequest req) = Except.ok t) :
    chat complete req = ([], ChatOutcome.success { response := t }) := by
  simp [chat, chatBody, h1, h2, h3]

/-- Witness for C6 with an oracle that returns "Hallo!". -/
theorem chat_success_returns_upstream_text_witness :
    stubOk (buildUpstreamRequest exampleReq) = Except.ok "Hallo!"
    ∧ chat stubOk exampleReq = ([], ChatOutcome.success { response := "Hallo!" }) :=
  ⟨rfl, chat_success_returns_upstream_text stubOk exampleReq "Hallo!"
    (by decide) (by decide) rfl⟩

/-- C7: whenever the upstream call raises, the endpoint answers 500 with
a non-empty detail embedding str(e), and the same str(e) appears in the
message printed server-side. -/
theorem chat_upstream_error_500_and_logged (complete : Completion)
    (req : ChatRequest) (e : Exc)
    (h1 : req.client_id ≠ "") (h2 : req.messages ≠ [])
    (h3 : complete (buildUpstreamRequest req) = Except.error e) :
    chat complete req
      = (["Error in chat endpoint: " ++ strExc e],
         ChatOutcome.failure 500 ("Ein Fehler ist aufgetreten: " ++ strExc e))
    ∧ strContains ("Ein Fehler ist aufgetreten: " ++ strExc e) (strExc e)
    ∧ "Ein Fehler ist aufgetreten: " ++ strExc e ≠ ""
    ∧ strContains ("Error in chat endpoint: " ++ strExc e) (strExc e) := by
  refine ⟨by simp [chat, chatBody, h1, h2, h3], ?_, ?_, ?_⟩
  · exact strContains_append_left _ _ _ (strContains_self _)
  · exact append_ne_empty_left _ _ (by decide)
  · exact strContains_append_left _ _ _ (strContains_self _)

/-- Witness for C7 with an oracle that raises a connection error. -/
theorem chat_upstream_error_500_and_logged_witness :
    stubErr (buildUpstreamRequest exampleReq)
      = Except.error (Exc.runtime "Connection error.")
    ∧ chat stubErr exampleReq
      = (["Error in chat endpoint: Connection error."],
         ChatOutcome.failure 500 "Ein Fehler ist aufgetreten: Connection error.") := by
  refine ⟨rfl, ?_⟩
  exact (chat_upstream_error_500_and_logged stubErr exampleReq
    (Exc.runtime "Connection error.") (by decide) (by decide) rfl).1

/-- C8: GET /health always answers status "healthy" with the fixed
payload, independently of the upstream oracle, which it never invokes. -/
theorem health_endpoint_constant (c₁ c₂ : Completion) :
    (health_check c₁).status = "healthy"
    ∧ health_check c₁ = health_check c₂
    ∧ health_check c₁
      = { status := "healthy", service := "financial-chatbot-api", version := "1.0.0" } :=
  ⟨rfl, rfl, rfl⟩

/-- Helper for C4: the pattern "ISIN" does not occur in X ++ (fn ++ "\n")
when it occurs neither in X nor in fn, given that X ends in a space. -/
theorem noIsinHelper (X fn : String)
    (hX : hasInfB "ISIN".data X.data = false)
    (hlastX : X.data.getLast? = some ' ')
    (hI : ¬ strContains fn "ISIN") :
    ¬ strContains (X ++ (fn ++ "\n")) "ISIN" := by
  intro hcon
  have hdata : "ISIN".data <:+: X.data ++ (fn.data ++ ['\n']) := by
    have h1 : "ISIN".data <:+: (X ++ (fn ++ "\n")).data := hcon
    rw [String.data_append, String.data_append] at h1
    exact h1
  have hY : ¬ "ISIN".data <:+: fn.data ++ ['\n'] := by
    refine no_straddle_right hI (by decide) ?_
    intro c hc hmem
    rw [show (['\n'] : List Char).head? = some '\n' from rfl] at hc
    injection hc with h
    subst h
    revert hmem
    decide
  refine no_straddle_left (not_mid_of_hasInfB hX) hY ?_ hdata
  intro c hc hmem
  rw [hlastX] at hc
  injection hc with h
  subst h
  revert hmem
  decide

/-- C4: with a (truthy) fund_name and no isin, the prompt is exactly the
compliance text followed by the context block holding the name line, the
prompt contains that name line, and, as long as the name itself does not
contain the string "ISIN", no "ISIN" occurs anywhere in the prompt. -/
theorem prompt_fund_name_without_isin (cid fn : String) (hfn : fn ≠ "")
    (hI : ¬ strContains fn "ISIN") :
    get_system_prompt cid none (some fn) none
      = base_prompt (resolveConfig cid)
        ++ (kontextHeader ++ ("- Name: " ++ fn ++ "\n"))
    ∧ strContains (get_system_prompt cid none (some fn) none)
        ("- Name: " ++ fn ++ "\n")
    ∧ ¬ strContains (get_system_prompt cid none (some fn) none) "ISIN" := by
  have heq : get_system_prompt cid none (some fn) none
      = base_prompt (resolveConfig cid)
        ++ (kontextHeader ++ ("- Name: " ++ fn ++ "\n")) := by
    simp [get_system_prompt, truthyStr, truthyDict, bne_iff_ne, hfn,
      String.append_assoc, String.append_empty]
  refine ⟨heq, ?_, ?_⟩
  · have heq2 : get_system_prompt cid none (some fn) none
        = (base_prompt (resolveConfig cid) ++ kontextHeader)
          ++ ("- Name: " ++ fn ++ "\n") ++ "" := by
      rw [heq]
      simp [String.append_assoc, String.append_empty]
    rw [heq2]
    exact strContains_mid _ _ _
  · have heq3 : get_system_prompt cid none (some fn) none
        = (base_prompt (resolveConfig cid) ++ kontextHeader ++ "- Name: ")
          ++ (fn ++ "\n") := by
      rw [heq]
      simp [String.append_assoc]
    rw [heq3]
    rcases resolveConfig_cases cid with hc | hc | hc <;> rw [hc] <;>
      exact noIsinHelper _ fn (by decide) (by decide) hI

/-- Witness for C4 at fund_name "MSCI World ETF" and client "comdirect". -/
theorem prompt_fund_name_without_isin_witness :
    ("MSCI World ETF" : String) ≠ ""
    ∧ ¬ strContains "MSCI World ETF" "ISIN"
    ∧ strContains (get_system_prompt "comdirect" none (some "MSCI World ETF") none)
        ("- Name: " ++ "MSCI World ETF" ++ "\n")
    ∧ ¬ strContains (get_system_prompt "comdirect" none (some "MSCI World ETF") none)
        "ISIN" := by
  have h := prompt_fund_name_without_isin "comdirect" "MSCI World ETF"
    (by decide) (by decide)
  exact ⟨by decide, by decide, h.2.1, h.2.2⟩

end FinChat
